import Mathlib

/-!
Shallow embedding of the OCR-to-Markdown Express server.

The repository holds two near-duplicate variants of one HTTP handler
(POST /api/ocr):
  - src/server.js: validates the request, uploads the image bytes to S3,
    calls the Together chat-completions API with the image inline, and
    uploads the extracted markdown to S3;
  - src/unnamed/part_000: same pipeline, but stages the image in a
    temporary file under /tmp and calls the llama-ocr library on that path.

Each handler is modelled as a pure function from the request, the
environment variables and a world of oracle outcomes (one per external
call, plus the three Date.now() samples) to the HTTP response together
with the trace of external calls issued, in order.  An object-store
write counts as issued when the corresponding PutObject call is made;
its success or failure is the oracle outcome.
-/

namespace OcrServer

/-- req.file as produced by multer: bytes, original name, declared MIME
type and size. -/
structure UploadedFile where
  originalname : String
  mimetype : String
  buffer : List Nat
  size : Nat
deriving DecidableEq, Repr

/-- The part of the Express request the handler reads. -/
structure Request where
  file : Option UploadedFile
deriving DecidableEq, Repr

/-- The environment variables the handler reads; a variable is none when
unset.  JavaScript truthiness makes the empty string count as unset. -/
structure Env where
  togetherApiKey : Option String
  bucketName : Option String
deriving DecidableEq, Repr

/-- Truthiness of an optional environment string: undefined and the
empty string are falsy. -/
def jsTruthy : Option String → Bool
  | none => false
  | some s => s != ""

/-- The data object of the success envelope (fields of res.json at the
end of the handler). -/
structure SuccessData where
  inputFile : String
  outputFile : String
  markdown : String
  bucket : String
  processingTime : String
deriving DecidableEq, Repr

/-- The HTTP response: a 200 success envelope or a failure envelope with
its status code and error message. -/
inductive Resp where
  | ok (d : SuccessData)
  | err (status : Nat) (msg : String)
deriving DecidableEq, Repr

/-- Body of an S3 PutObject call: the image goes up as a byte buffer,
the markdown as a string. -/
inductive Body where
  | bytes (b : List Nat)
  | text (s : String)
deriving DecidableEq, Repr

/-- One external call issued by a handler, in program order. -/
inductive Event where
  | s3Put (bucket key : String) (body : Body) (contentType : String)
  | inferenceCall
  | ocrCall (path : String)
  | tmpFileWrite (path : String) (content : List Nat)
  | tmpFileUnlink (path : String)
deriving DecidableEq, Repr

/-- error.message with the catch-block fallback: a falsy (empty) message
is replaced by the literal fallback text. -/
def errMsg (e : String) : String :=
  if e = "" then "Failed to process image" else e

/-- choices[0]?.message?.content with the fallback of the logical-or:
undefined and the empty string are falsy, so both yield the literal
placeholder. -/
def contentOrFallback : Option String → String
  | none => "No text extracted"
  | some s => if s = "" then "No text extracted" else s

/-- Total centiseconds after rounding to the nearest centisecond, used
to model toFixed(2) applied to ms/1000. -/
def centisOf (ms : Nat) : Nat := (ms + 5) / 10

/-- Two-digit zero-padded decimal rendering of a remainder below 100. -/
def twoDigits (n : Nat) : String :=
  (if n < 10 then "0" else "") ++ Nat.repr n

/-- Model of ((endMs - startMs) / 1000).toFixed(2) on integral
milliseconds: seconds with exactly two decimal places, rounding to the
nearest centisecond (ties up; IEEE toFixed may differ on exact
half-centisecond ties, which no claim depends on). -/
def toFixed2 (ms : Nat) : String :=
  Nat.repr (centisOf ms / 100) ++ "." ++ twoDigits (centisOf ms % 100)

/-- The S3 key for the image upload. -/
def s3KeyOf (timestamp : Nat) (originalname : String) : String :=
  "uploads/" ++ Nat.repr timestamp ++ "-" ++ originalname

/-- The staging path used by the temp-file variant. -/
def tempPathOf (timestamp : Nat) (originalname : String) : String :=
  "/tmp/" ++ Nat.repr timestamp ++ "-" ++ originalname

/-- Scans the reversed key for the regex match of the extension pattern:
a dot followed by one or more non-dot characters at the end of the
string.  The argument list is the reversed key; the flag records whether
at least one non-dot character has been passed.  Returns the reversed
prefix in front of the final dot when the pattern matches. -/
def findExtSplit : List Char → Bool → Option (List Char)
  | [], _ => none
  | c :: rest, seen =>
    if c = '.' then (if seen then some rest else none)
    else findExtSplit rest true

/-- s3Key.replace of the extension regex with ".md": when the pattern
matches, the final extension is replaced; otherwise the key is returned
unchanged. -/
def mdKeyOf (s : String) : String :=
  match findExtSplit s.data.reverse false with
  | some pre => String.mk (pre.reverse ++ ['.', 'm', 'd'])
  | none => s

/-- Failure message for a request without a file. -/
def noFileMsg : String := "No image file provided. Please upload an image."

/-- Failure message for a missing inference credential. -/
def noKeyMsg : String := "Server configuration error: TOGETHER_API_KEY not set"

/-- Failure message for a missing bucket configuration. -/
def noBucketMsg : String := "Server configuration error: BUCKET_NAME not set"

/-- Oracle outcomes for the external calls a request may issue, plus the
three Date.now() samples: now1 at key generation, now2 just before the
inference call, now3 just after it.  The inference field carries the
chat-completions content (none models missing content); ocrResult
carries the string returned by the llama-ocr library.  The tmpUnlink
outcome is swallowed by the code and hence never read by the model. -/
structure World where
  now1 : Nat
  now2 : Nat
  now3 : Nat
  imgUpload : Except String Unit
  inference : Except String (Option String)
  ocrResult : Except String String
  mdUpload : Except String Unit
  tmpWrite : Except String Unit
  tmpUnlink : Except String Unit

/-- The src/server.js handler for POST /api/ocr: validate, upload the
image, call the chat-completions API, upload the markdown, respond.
Any error thrown by an external call lands in the catch block, which
answers 500 with the error message. -/
def handleOcr (req : Request) (env : Env) (w : World) : Resp × List Event :=
  match req.file with
  | none => (.err 400 noFileMsg, [])
  | some file =>
    match jsTruthy env.togetherApiKey with
    | false => (.err 500 noKeyMsg, [])
    | true =>
      match jsTruthy env.bucketName with
      | false => (.err 500 noBucketMsg, [])
      | true =>
        let bucketName := env.bucketName.getD ""
        let s3Key := s3KeyOf w.now1 file.originalname
        let ev1 := Event.s3Put bucketName s3Key (.bytes file.buffer) file.mimetype
        match w.imgUpload with
        | .error e => (.err 500 (errMsg e), [ev1])
        | .ok _ =>
          match w.inference with
          | .error e => (.err 500 (errMsg e), [ev1, .inferenceCall])
          | .ok content =>
            let markdown := contentOrFallback content
            let processingTime := toFixed2 (w.now3 - w.now2)
            let mdKey := mdKeyOf s3Key
            let ev3 := Event.s3Put bucketName mdKey (.text markdown) "text/markdown"
            match w.mdUpload with
            | .error e => (.err 500 (errMsg e), [ev1, .inferenceCall, ev3])
            | .ok _ =>
              (.ok ⟨s3Key, mdKey, markdown, bucketName, processingTime ++ "s"⟩,
               [ev1, .inferenceCall, ev3])

/-- The src/unnamed/part_000 handler for POST /api/ocr: validate, write
the image to a temp file, upload the image, call llama-ocr on the temp
path, upload the markdown, unlink the temp file (outcome swallowed by
the catch of the unlink promise), respond. -/
def handleOcrTmp (req : Request) (env : Env) (w : World) : Resp × List Event :=
  match req.file with
  | none => (.err 400 noFileMsg, [])
  | some file =>
    match jsTruthy env.togetherApiKey with
    | false => (.err 500 noKeyMsg, [])
    | true =>
      match jsTruthy env.bucketName with
      | false => (.err 500 noBucketMsg, [])
      | true =>
        let bucketName := env.bucketName.getD ""
        let tempPath := tempPathOf w.now1 file.originalname
        let evW := Event.tmpFileWrite tempPath file.buffer
        match w.tmpWrite with
        | .error e => (.err 500 (errMsg e), [evW])
        | .ok _ =>
          let s3Key := s3KeyOf w.now1 file.originalname
          let ev1 := Event.s3Put bucketName s3Key (.bytes file.buffer) file.mimetype
          match w.imgUpload with
          | .error e => (.err 500 (errMsg e), [evW, ev1])
          | .ok _ =>
            match w.ocrResult with
            | .error e => (.err 500 (errMsg e), [evW, ev1, .ocrCall tempPath])
            | .ok markdown =>
              let processingTime := toFixed2 (w.now3 - w.now2)
              let mdKey := mdKeyOf s3Key
              let ev3 := Event.s3Put bucketName mdKey (.text markdown) "text/markdown"
              match w.mdUpload with
              | .error e => (.err 500 (errMsg e), [evW, ev1, .ocrCall tempPath, ev3])
              | .ok _ =>
                (.ok ⟨s3Key, mdKey, markdown, bucketName, processingTime ++ "s"⟩,
                 [evW, ev1, .ocrCall tempPath, ev3, .tmpFileUnlink tempPath])

/-- All three validation checks pass, in the truthiness sense of the
source. -/
def validationPasses (req : Request) (env : Env) : Bool :=
  req.file.isSome && jsTruthy env.togetherApiKey && jsTruthy env.bucketName

/-- An object-store write. -/
def Event.isPut : Event → Bool
  | .s3Put _ _ _ _ => true
  | _ => false

/-- A markdown object-store write: the only put whose body is a string. -/
def Event.isMdWrite : Event → Bool
  | .s3Put _ _ (.text _) _ => true
  | _ => false

/-- An image object-store write: the only put whose body is a buffer. -/
def Event.isImgWrite : Event → Bool
  | .s3Put _ _ (.bytes _) _ => true
  | _ => false

/-- A local temp-file operation (not an external-service call). -/
def Event.isTmpOp : Event → Bool
  | .tmpFileWrite _ _ => true
  | .tmpFileUnlink _ => true
  | _ => false

/-- A temp-file deletion attempt. -/
def Event.isUnlink : Event → Bool
  | .tmpFileUnlink _ => true
  | _ => false

/-- The response is a failure envelope. -/
def Resp.isFailure : Resp → Bool
  | .ok _ => false
  | .err _ _ => true

/-- The image put event of a request that passed validation. -/
def imgPutEv (env : Env) (w : World) (file : UploadedFile) : Event :=
  .s3Put (env.bucketName.getD "") (s3KeyOf w.now1 file.originalname)
    (.bytes file.buffer) file.mimetype

/-- The markdown put event of a request whose inference stage produced
the given markdown. -/
def mdPutEv (env : Env) (w : World) (file : UploadedFile) (md : String) : Event :=
  .s3Put (env.bucketName.getD "") (mdKeyOf (s3KeyOf w.now1 file.originalname))
    (.text md) "text/markdown"

/-! Branch characterizations of the two handlers. -/

lemma handleOcr_noFile (req : Request) (env : Env) (w : World) (h : req.file = none) :
    handleOcr req env w = (.err 400 noFileMsg, []) := by
  simp [handleOcr, h]

lemma handleOcr_noKey (req : Request) (env : Env) (w : World) (file : UploadedFile)
    (h : req.file = some file) (hk : jsTruthy env.togetherApiKey = false) :
    handleOcr req env w = (.err 500 noKeyMsg, []) := by
  simp [handleOcr, h, hk]

lemma handleOcr_noBucket (req : Request) (env : Env) (w : World) (file : UploadedFile)
    (h : req.file = some file) (hk : jsTruthy env.togetherApiKey = true)
    (hb : jsTruthy env.bucketName = false) :
    handleOcr req env w = (.err 500 noBucketMsg, []) := by
  simp [handleOcr, h, hk, hb]

lemma handleOcr_imgErr (req : Request) (env : Env) (w : World) (file : UploadedFile)
    (e : String) (h : req.file = some file) (hk : jsTruthy env.togetherApiKey = true)
    (hb : jsTruthy env.bucketName = true) (hi : w.imgUpload = .error e) :
    handleOcr req env w = (.err 500 (errMsg e), [imgPutEv env w file]) := by
  simp [handleOcr, h, hk, hb, hi, imgPutEv]

lemma handleOcr_infErr (req : Request) (env : Env) (w : World) (file : UploadedFile)
    (e : String) (h : req.file = some file) (hk : jsTruthy env.togetherApiKey = true)
    (hb : jsTruthy env.bucketName = true) (hi : w.imgUpload = .ok ())
    (hc : w.inference = .error e) :
    handleOcr req env w = (.err 500 (errMsg e), [imgPutEv env w file, .inferenceCall]) := by
  simp [handleOcr, h, hk, hb, hi, hc, imgPutEv]

lemma handleOcr_mdErr (req : Request) (env : Env) (w : World) (file : UploadedFile)
    (content : Option String) (e : String) (h : req.file = some file)
    (hk : jsTruthy env.togetherApiKey = true) (hb : jsTruthy env.bucketName = true)
    (hi : w.imgUpload = .ok ()) (hc : w.inference = .ok content)
    (hm : w.mdUpload = .error e) :
    handleOcr req env w = (.err 500 (errMsg e),
      [imgPutEv env w file, .inferenceCall, mdPutEv env w file (contentOrFallback content)]) := by
  simp [handleOcr, h, hk, hb, hi, hc, hm, imgPutEv, mdPutEv]

lemma handleOcr_success (req : Request) (env : Env) (w : World) (file : UploadedFile)
    (content : Option String) (h : req.file = some file)
    (hk : jsTruthy env.togetherApiKey = true) (hb : jsTruthy env.bucketName = true)
    (hi : w.imgUpload = .ok ()) (hc : w.inference = .ok content)
    (hm : w.mdUpload = .ok ()) :
    handleOcr req env w = (.ok ⟨s3KeyOf w.now1 file.originalname,
        mdKeyOf (s3KeyOf w.now1 file.originalname), contentOrFallback content,
        env.bucketName.getD "", toFixed2 (w.now3 - w.now2) ++ "s"⟩,
      [imgPutEv env w file, .inferenceCall, mdPutEv env w file (contentOrFallback content)]) := by
  simp [handleOcr, h, hk, hb, hi, hc, hm, imgPutEv, mdPutEv]

lemma handleOcrTmp_noFile (req : Request) (env : Env) (w : World) (h : req.file = none) :
    handleOcrTmp req env w = (.err 400 noFileMsg, []) := by
  simp [handleOcrTmp, h]

lemma handleOcrTmp_noKey (req : Request) (env : Env) (w : World) (file : UploadedFile)
    (h : req.file = some file) (hk : jsTruthy env.togetherApiKey = false) :
    handleOcrTmp req env w = (.err 500 noKeyMsg, []) := by
  simp [handleOcrTmp, h, hk]

lemma handleOcrTmp_noBucket (req : Request) (env : Env) (w : World) (file : UploadedFile)
    (h : req.file = some file) (hk : jsTruthy env.togetherApiKey = true)
    (hb : jsTruthy env.bucketName = false) :
    handleOcrTmp req env w = (.err 500 noBucketMsg, []) := by
  simp [handleOcrTmp, h, hk, hb]

lemma handleOcrTmp_writeErr (req : Request) (env : Env) (w : World) (file : UploadedFile)
    (e : String) (h : req.file = some file) (hk : jsTruthy env.togetherApiKey = true)
    (hb : jsTruthy env.bucketName = true) (hw : w.tmpWrite = .error e) :
    handleOcrTmp req env w = (.err 500 (errMsg e),
      [.tmpFileWrite (tempPathOf w.now1 file.originalname) file.buffer]) := by
  simp [handleOcrTmp, h, hk, hb, hw]

lemma handleOcrTmp_imgErr (req : Request) (env : Env) (w : World) (file : UploadedFile)
    (e : String) (h : req.file = some file) (hk : jsTruthy env.togetherApiKey = true)
    (hb : jsTruthy env.bucketName = true) (hw : w.tmpWrite = .ok ())
    (hi : w.imgUpload = .error e) :
    handleOcrTmp req env w = (.err 500 (errMsg e),
      [.tmpFileWrite (tempPathOf w.now1 file.originalname) file.buffer,
       imgPutEv env w file]) := by
  simp [handleOcrTmp, h, hk, hb, hw, hi, imgPutEv]

lemma handleOcrTmp_ocrErr (req : Request) (env : Env) (w : World) (file : UploadedFile)
    (e : String) (h : req.file = some file) (hk : jsTruthy env.togetherApiKey = true)
    (hb : jsTruthy env.bucketName = true) (hw : w.tmpWrite = .ok ())
    (hi : w.imgUpload = .ok ()) (hc : w.ocrResult = .error e) :
    handleOcrTmp req env w = (.err 500 (errMsg e),
      [.tmpFileWrite (tempPathOf w.now1 file.originalname) file.buffer,
       imgPutEv env w file, .ocrCall (tempPathOf w.now1 file.originalname)]) := by
  simp [handleOcrTmp, h, hk, hb, hw, hi, hc, imgPutEv]

lemma handleOcrTmp_mdErr (req : Request) (env : Env) (w : World) (file : UploadedFile)
    (md e : String) (h : req.file = some file) (hk : jsTruthy env.togetherApiKey = true)
    (hb : jsTruthy env.bucketName = true) (hw : w.tmpWrite = .ok ())
    (hi : w.imgUpload = .ok ()) (hc : w.ocrResult = .ok md)
    (hm : w.mdUpload = .error e) :
    handleOcrTmp req env w = (.err 500 (errMsg e),
      [.tmpFileWrite (tempPathOf w.now1 file.originalname) file.buffer,
       imgPutEv env w file, .ocrCall (tempPathOf w.now1 file.originalname),
       mdPutEv env w file md]) := by
  simp [handleOcrTmp, h, hk, hb, hw, hi, hc, hm, imgPutEv, mdPutEv]

lemma handleOcrTmp_success (req : Request) (env : Env) (w : World) (file : UploadedFile)
    (md : String) (h : req.file = some file) (hk : jsTruthy env.togetherApiKey = true)
    (hb : jsTruthy env.bucketName = true) (hw : w.tmpWrite = .ok ())
    (hi : w.imgUpload = .ok ()) (hc : w.ocrResult = .ok md)
    (hm : w.mdUpload = .ok ()) :
    handleOcrTmp req env w = (.ok ⟨s3KeyOf w.now1 file.originalname,
        mdKeyOf (s3KeyOf w.now1 file.originalname), md,
        env.bucketName.getD "", toFixed2 (w.now3 - w.now2) ++ "s"⟩,
      [.tmpFileWrite (tempPathOf w.now1 file.originalname) file.buffer,
       imgPutEv env w file, .ocrCall (tempPathOf w.now1 file.originalname),
       mdPutEv env w file md, .tmpFileUnlink (tempPathOf w.now1 file.originalname)]) := by
  simp [handleOcrTmp, h, hk, hb, hw, hi, hc, hm, imgPutEv, mdPutEv]

/-! Lemmas about the extension-replacing regex and the key layout. -/

lemma findExtSplit_no_dot (l : List Char) (h : '.' ∉ l) :
    ∀ seen, findExtSplit l seen = none := by
  induction l with
  | nil => intro seen; rfl
  | cons c rest ih =>
    intro seen
    have hc : ¬ c = '.' := fun hc => h (hc ▸ List.mem_cons_self c rest)
    have hrest : '.' ∉ rest := fun hm => h (List.mem_cons_of_mem _ hm)
    simp [findExtSplit, hc, ih hrest]

lemma findExtSplit_ext (l r : List Char) (h : '.' ∉ l) :
    ∀ seen, (l ≠ [] ∨ seen = true) → findExtSplit (l ++ '.' :: r) seen = some r := by
  induction l with
  | nil =>
    intro seen hs
    rcases hs with hs | hs
    · exact absurd rfl hs
    · subst hs; simp [findExtSplit]
  | cons c rest ih =>
    intro seen _
    have hc : ¬ c = '.' := fun hc => h (hc ▸ List.mem_cons_self c rest)
    have hrest : '.' ∉ rest := fun hm => h (List.mem_cons_of_mem _ hm)
    simpa [findExtSplit, hc] using ih hrest true (Or.inr rfl)

lemma mdKeyOf_no_dot (s : String) (h : '.' ∉ s.data) : mdKeyOf s = s := by
  have hrev : '.' ∉ s.data.reverse := by simpa using h
  simp [mdKeyOf, findExtSplit_no_dot _ hrev false]

lemma mdKeyOf_ext (p ext : String) (h1 : ext.data ≠ []) (h2 : '.' ∉ ext.data) :
    mdKeyOf (p ++ "." ++ ext) = p ++ ".md" := by
  have hrev : (p ++ "." ++ ext).data.reverse = ext.data.reverse ++ '.' :: p.data.reverse := by
    simp [String.data_append]
  apply String.ext
  unfold mdKeyOf
  rw [hrev, findExtSplit_ext ext.data.reverse p.data.reverse (by simpa using h2) false
    (Or.inl (by simpa using h1))]
  show p.data.reverse.reverse ++ ['.', 'm', 'd'] = (p ++ ".md").data
  rw [List.reverse_reverse, String.data_append]

lemma digitChar_ne_dot (n : Nat) : Nat.digitChar n ≠ '.' := by
  by_cases h16 : n < 16
  · interval_cases n <;> decide
  · unfold Nat.digitChar
    repeat rw [if_neg (by omega)]
    decide

lemma toDigitsCore_no_dot (b : Nat) :
    ∀ (f n : Nat) (acc : List Char), '.' ∉ acc → '.' ∉ Nat.toDigitsCore b f n acc := by
  intro f
  induction f with
  | zero => intro n acc h; simpa [Nat.toDigitsCore] using h
  | succ f ih =>
    intro n acc h
    simp only [Nat.toDigitsCore]
    split
    · intro hm
      rcases List.mem_cons.mp hm with hm | hm
      · exact digitChar_ne_dot (n % b) hm.symm
      · exact h hm
    · refine ih (n / b) _ ?_
      intro hm
      rcases List.mem_cons.mp hm with hm | hm
      · exact digitChar_ne_dot (n % b) hm.symm
      · exact h hm

lemma repr_no_dot (n : Nat) : '.' ∉ (Nat.repr n).data := by
  show '.' ∉ (Nat.toDigits 10 n).asString.data
  have hd : (Nat.toDigits 10 n).asString.data = Nat.toDigits 10 n := rfl
  rw [hd]
  exact toDigitsCore_no_dot 10 (n + 1) n [] (by simp)

lemma s3KeyOf_no_dot (t : Nat) (n : String) (h : '.' ∉ n.data) :
    '.' ∉ (s3KeyOf t n).data := by
  unfold s3KeyOf
  rw [String.data_append, String.data_append, String.data_append]
  simp only [List.mem_append]
  rintro (((h1 | h1) | h1) | h1)
  · exact absurd h1 (by decide)
  · exact repr_no_dot t h1
  · exact absurd h1 (by decide)
  · exact h h1

lemma mdKeyOf_s3KeyOf_no_dot (t : Nat) (n : String) (h : '.' ∉ n.data) :
    mdKeyOf (s3KeyOf t n) = s3KeyOf t n :=
  mdKeyOf_no_dot _ (s3KeyOf_no_dot t n h)

lemma mdKeyOf_s3KeyOf_ext (t : Nat) (stem ext : String)
    (h1 : ext.data ≠ []) (h2 : '.' ∉ ext.data) :
    mdKeyOf (s3KeyOf t (stem ++ "." ++ ext)) = s3KeyOf t stem ++ ".md" := by
  have hkey : s3KeyOf t (stem ++ "." ++ ext) = s3KeyOf t stem ++ "." ++ ext := by
    apply String.ext
    simp [s3KeyOf, String.data_append, List.append_assoc]
  rw [hkey, mdKeyOf_ext _ _ h1 h2]

/-! Concrete fixtures used by witnesses and counterexamples. -/

/-- A three-byte PNG upload named scan.png. -/
def file0 : UploadedFile := ⟨"scan.png", "image/png", [1, 2, 3], 3⟩

/-- An upload whose filename has no extension. -/
def fileNoExt : UploadedFile := ⟨"README", "text/plain", [9], 1⟩

/-- Request carrying file0. -/
def req0 : Request := ⟨some file0⟩

/-- Request carrying the extensionless upload. -/
def reqNoExt : Request := ⟨some fileNoExt⟩

/-- Request without a file. -/
def reqNone : Request := ⟨none⟩

/-- Fully configured environment. -/
def env0 : Env := ⟨some "tok", some "bucket"⟩

/-- Environment with the inference credential unset. -/
def envNoKey : Env := ⟨none, some "bucket"⟩

/-- Environment with the bucket unset. -/
def envNoBucket : Env := ⟨some "tok", none⟩

/-- All external calls succeed; extraction yields a title; the clock
ticks from 0 to 2000 ms around the inference call. -/
def w0 : World := ⟨1000, 0, 2000, .ok (), .ok (some "# Title"), .ok "# Title",
  .ok (), .ok (), .ok ()⟩

/-- The inference call throws a rate-limit error. -/
def wInfErr : World := ⟨1000, 0, 2000, .ok (), .error "rate limited",
  .error "rate limited", .ok (), .ok (), .ok ()⟩

/-- Both inference backends report the empty string as extracted text. -/
def wEmptyText : World := ⟨1000, 0, 2000, .ok (), .ok (some ""), .ok "",
  .ok (), .ok (), .ok ()⟩

/-- The chat-completions response carries no message content. -/
def wNoContent : World := ⟨1000, 0, 2000, .ok (), .ok none, .ok "",
  .ok (), .ok (), .ok ()⟩

/-- The OCR call throws while everything else succeeds. -/
def wOcrErr : World := ⟨1000, 0, 2000, .ok (), .error "boom", .error "boom",
  .ok (), .ok (), .ok ()⟩

/-- The expected success data of running w0 on req0. -/
def d0 : SuccessData := ⟨"uploads/1000-scan.png", "uploads/1000-scan.md",
  "# Title", "bucket", "2.00s"⟩

/-- The expected trace of running w0 on req0. -/
def tr0 : List Event :=
  [.s3Put "bucket" "uploads/1000-scan.png" (.bytes [1, 2, 3]) "image/png",
   .inferenceCall,
   .s3Put "bucket" "uploads/1000-scan.md" (.text "# Title") "text/markdown"]

/-- The expected success data of running w0 on the extensionless upload. -/
def dNoExt : SuccessData := ⟨"uploads/1000-README", "uploads/1000-README",
  "# Title", "bucket", "2.00s"⟩

/-- The expected trace of running w0 on the extensionless upload. -/
def trNoExt : List Event :=
  [.s3Put "bucket" "uploads/1000-README" (.bytes [9]) "text/plain",
   .inferenceCall,
   .s3Put "bucket" "uploads/1000-README" (.text "# Title") "text/markdown"]

/-! The claims. -/

/-- C1: a markdown object is written if and only if the inference call
was made and succeeded; the image object is written if and only if
validation passed; and when the inference call throws, no markdown
object is ever written and the response is a failure envelope. -/
theorem claim1_md_write_iff_inference_ok (req : Request) (env : Env) (w : World) :
    ((∃ ev ∈ (handleOcr req env w).2, Event.isMdWrite ev = true) ↔
      (Event.inferenceCall ∈ (handleOcr req env w).2 ∧ ∃ c, w.inference = Except.ok c))
    ∧ ((∃ ev ∈ (handleOcr req env w).2, Event.isImgWrite ev = true) ↔
      validationPasses req env = true)
    ∧ (∀ e, w.inference = Except.error e →
        Event.inferenceCall ∈ (handleOcr req env w).2 →
        ((∀ ev ∈ (handleOcr req env w).2, Event.isMdWrite ev = false)
          ∧ (handleOcr req env w).1.isFailure = true)) := by
  rcases hf : req.file with _ | file
  · rw [handleOcr_noFile req env w hf]
    simp [validationPasses, hf]
  · cases hk : jsTruthy env.togetherApiKey
    · rw [handleOcr_noKey req env w file hf hk]
      simp [validationPasses, hf, hk]
    · cases hb : jsTruthy env.bucketName
      · rw [handleOcr_noBucket req env w file hf hk hb]
        simp [validationPasses, hf, hk, hb]
      · rcases hi : w.imgUpload with e | ⟨⟩
        · rw [handleOcr_imgErr req env w file e hf hk hb hi]
          simp [validationPasses, hf, hk, hb, imgPutEv, Event.isMdWrite,
            Event.isImgWrite, Resp.isFailure, hi]
        · rcases hc : w.inference with e | c
          · rw [handleOcr_infErr req env w file e hf hk hb hi hc]
            simp [validationPasses, hf, hk, hb, imgPutEv, Event.isMdWrite,
              Event.isImgWrite, Resp.isFailure, hc]
          · rcases hm : w.mdUpload with e | ⟨⟩
            · rw [handleOcr_mdErr req env w file c e hf hk hb hi hc hm]
              simp [validationPasses, hf, hk, hb, imgPutEv, mdPutEv,
                Event.isMdWrite, Event.isImgWrite, Resp.isFailure, hc]
            · rw [handleOcr_success req env w file c hf hk hb hi hc hm]
              simp [validationPasses, hf, hk, hb, imgPutEv, mdPutEv,
                Event.isMdWrite, Event.isImgWrite, Resp.isFailure, hc]

/-- C1 witness: with the inference call throwing a rate-limit error on a
valid request, no markdown write appears in the trace and the response
is a failure envelope. -/
theorem claim1_witness :
    (∀ ev ∈ (handleOcr req0 env0 wInfErr).2, Event.isMdWrite ev = false)
    ∧ (handleOcr req0 env0 wInfErr).1.isFailure = true :=
  (claim1_md_write_iff_inference_ok req0 env0 wInfErr).2.2 "rate limited" rfl (by decide)

/-- C2: the validator checks file, credential and bucket in that order
and on the first failing check answers 400 (missing file) or 500
(missing credential or bucket) with an empty trace, i.e. without
invoking the object store or the inference service. -/
theorem claim2_validator_short_circuit (req : Request) (env : Env) (w : World) :
    (req.file = none → handleOcr req env w = (.err 400 noFileMsg, []))
    ∧ (∀ file, req.file = some file → jsTruthy env.togetherApiKey = false →
        handleOcr req env w = (.err 500 noKeyMsg, []))
    ∧ (∀ file, req.file = some file → jsTruthy env.togetherApiKey = true →
        jsTruthy env.bucketName = false →
        handleOcr req env w = (.err 500 noBucketMsg, [])) :=
  ⟨fun h => handleOcr_noFile req env w h,
   fun file h hk => handleOcr_noKey req env w file h hk,
   fun file h hk hb => handleOcr_noBucket req env w file h hk hb⟩

/-- C2 witness: the three short-circuit branches at concrete inputs. -/
theorem claim2_witness :
    handleOcr reqNone env0 w0 = (.err 400 noFileMsg, [])
    ∧ handleOcr req0 envNoKey w0 = (.err 500 noKeyMsg, [])
    ∧ handleOcr req0 envNoBucket w0 = (.err 500 noBucketMsg, []) :=
  ⟨(claim2_validator_short_circuit reqNone env0 w0).1 rfl,
   (claim2_validator_short_circuit req0 envNoKey w0).2.1 file0 rfl (by decide),
   (claim2_validator_short_circuit req0 envNoBucket w0).2.2 file0 rfl (by decide) (by decide)⟩

/-- C3: when the chat-completions response carries no usable text
content (missing or empty), the request completes as a success whose
markdown field is the literal placeholder, and a markdown object with
exactly that content is written. -/
theorem claim3_no_text_soft_success (req : Request) (env : Env) (w : World)
    (file : UploadedFile) (h : req.file = some file)
    (hk : jsTruthy env.togetherApiKey = true) (hb : jsTruthy env.bucketName = true)
    (hi : w.imgUpload = .ok ())
    (hc : w.inference = .ok none ∨ w.inference = .ok (some ""))
    (hm : w.mdUpload = .ok ()) :
    handleOcr req env w = (.ok ⟨s3KeyOf w.now1 file.originalname,
        mdKeyOf (s3KeyOf w.now1 file.originalname), "No text extracted",
        env.bucketName.getD "", toFixed2 (w.now3 - w.now2) ++ "s"⟩,
      [imgPutEv env w file, .inferenceCall,
       mdPutEv env w file "No text extracted"]) := by
  rcases hc with hc | hc
  · simpa [contentOrFallback] using handleOcr_success req env w file none h hk hb hi hc hm
  · simpa [contentOrFallback] using
      handleOcr_success req env w file (some "") h hk hb hi hc hm

/-- C3 witness: a run whose chat-completions response has no content. -/
theorem claim3_witness :
    handleOcr req0 env0 wNoContent = (.ok ⟨s3KeyOf wNoContent.now1 file0.originalname,
        mdKeyOf (s3KeyOf wNoContent.now1 file0.originalname), "No text extracted",
        env0.bucketName.getD "",
        toFixed2 (wNoContent.now3 - wNoContent.now2) ++ "s"⟩,
      [imgPutEv env0 wNoContent file0, .inferenceCall,
       mdPutEv env0 wNoContent file0 "No text extracted"]) :=
  claim3_no_text_soft_success req0 env0 wNoContent file0 rfl (by decide) (by decide)
    rfl (Or.inl rfl) rfl

/-- The temp-file handler never reads the unlink outcome: deletion
failure is swallowed by the catch on the unlink promise. -/
lemma handleOcrTmp_unlink_outcome_ignored (req : Request) (env : Env) (w : World)
    (u : Except String Unit) :
    handleOcrTmp req env
      ⟨w.now1, w.now2, w.now3, w.imgUpload, w.inference, w.ocrResult, w.mdUpload,
       w.tmpWrite, u⟩ = handleOcrTmp req env w := by
  rcases w with ⟨n1, n2, n3, iu, inf, ocr, md, tw, tu⟩
  rfl

/-- C4 counterexample: on a valid request whose OCR call throws, the
temp-file variant writes the staging file, reaches the failure envelope
and never attempts to delete the staging file. -/
theorem claim4_counterexample :
    (handleOcrTmp req0 env0 wOcrErr).1 = .err 500 "boom"
    ∧ Event.tmpFileWrite "/tmp/1000-scan.png" [1, 2, 3] ∈ (handleOcrTmp req0 env0 wOcrErr).2
    ∧ (∀ ev ∈ (handleOcrTmp req0 env0 wOcrErr).2, Event.isUnlink ev = false) := by
  decide

/-- C4 (amended): the temp-file variant attempts the deletion exactly on
the full success path, where the deletion outcome is swallowed and never
changes the response or the trace; failure paths after the staging write
do not attempt deletion. -/
theorem claim4_amended_cleanup_success_only (req : Request) (env : Env) (w : World) :
    ((∃ ev ∈ (handleOcrTmp req env w).2, Event.isUnlink ev = true) ↔
      (handleOcrTmp req env w).1.isFailure = false)
    ∧ (∀ u, handleOcrTmp req env
        ⟨w.now1, w.now2, w.now3, w.imgUpload, w.inference, w.ocrResult, w.mdUpload,
         w.tmpWrite, u⟩ = handleOcrTmp req env w) := by
  refine ⟨?_, fun u => handleOcrTmp_unlink_outcome_ignored req env w u⟩
  rcases hf : req.file with _ | file
  · rw [handleOcrTmp_noFile req env w hf]
    simp [Resp.isFailure]
  · cases hk : jsTruthy env.togetherApiKey
    · rw [handleOcrTmp_noKey req env w file hf hk]
      simp [Resp.isFailure]
    · cases hb : jsTruthy env.bucketName
      · rw [handleOcrTmp_noBucket req env w file hf hk hb]
        simp [Resp.isFailure]
      · rcases hw : w.tmpWrite with e | ⟨⟩
        · rw [handleOcrTmp_writeErr req env w file e hf hk hb hw]
          simp [Resp.isFailure, Event.isUnlink]
        · rcases hi : w.imgUpload with e | ⟨⟩
          · rw [handleOcrTmp_imgErr req env w file e hf hk hb hw hi]
            simp [Resp.isFailure, Event.isUnlink, imgPutEv]
          · rcases hc : w.ocrResult with e | md
            · rw [handleOcrTmp_ocrErr req env w file e hf hk hb hw hi hc]
              simp [Resp.isFailure, Event.isUnlink, imgPutEv]
            · rcases hm : w.mdUpload with e | ⟨⟩
              · rw [handleOcrTmp_mdErr req env w file md e hf hk hb hw hi hc hm]
                simp [Resp.isFailure, Event.isUnlink, imgPutEv, mdPutEv]
              · rw [handleOcrTmp_success req env w file md hf hk hb hw hi hc hm]
                simp [Resp.isFailure, Event.isUnlink, imgPutEv, mdPutEv]

/-- C5: for every accepted upload whose filename carries a final
extension, the image key is the uploads prefix, the millisecond
timestamp, a hyphen and the original filename, and the markdown key is
that same key with the final extension replaced by .md. -/
theorem claim5_key_layout (req : Request) (env : Env) (w : World) (file : UploadedFile)
    (stem ext : String) (h : req.file = some file)
    (hname : file.originalname = stem ++ "." ++ ext)
    (hext : ext.data ≠ []) (hdot : '.' ∉ ext.data)
    (hk : jsTruthy env.togetherApiKey = true) (hb : jsTruthy env.bucketName = true) :
    (handleOcr req env w).2.head? = some (.s3Put (env.bucketName.getD "")
      ("uploads/" ++ Nat.repr w.now1 ++ "-" ++ file.originalname) (.bytes file.buffer)
      file.mimetype)
    ∧ mdKeyOf (s3KeyOf w.now1 file.originalname) =
      "uploads/" ++ Nat.repr w.now1 ++ "-" ++ stem ++ ".md" := by
  constructor
  · have hkey : s3KeyOf w.now1 file.originalname =
        "uploads/" ++ Nat.repr w.now1 ++ "-" ++ file.originalname := rfl
    rcases hi : w.imgUpload with e | ⟨⟩
    · rw [handleOcr_imgErr req env w file e h hk hb hi]
      simp [imgPutEv, hkey]
    · rcases hc : w.inference with e | c
      · rw [handleOcr_infErr req env w file e h hk hb hi hc]
        simp [imgPutEv, hkey]
      · rcases hm : w.mdUpload with e | ⟨⟩
        · rw [handleOcr_mdErr req env w file c e h hk hb hi hc hm]
          simp [imgPutEv, hkey]
        · rw [handleOcr_success req env w file c h hk hb hi hc hm]
          simp [imgPutEv, hkey]
  · rw [hname, mdKeyOf_s3KeyOf_ext w.now1 stem ext hext hdot]
    rfl

/-- C5 witness: the key layout for scan.png at timestamp 1000. -/
theorem claim5_witness :
    (handleOcr req0 env0 w0).2.head? = some (.s3Put (env0.bucketName.getD "")
      ("uploads/" ++ Nat.repr w0.now1 ++ "-" ++ file0.originalname) (.bytes file0.buffer)
      file0.mimetype)
    ∧ mdKeyOf (s3KeyOf w0.now1 file0.originalname) =
      "uploads/" ++ Nat.repr w0.now1 ++ "-" ++ "scan" ++ ".md" :=
  claim5_key_layout req0 env0 w0 file0 "scan" "png" rfl (by decide) (by decide)
    (by decide) (by decide) (by decide)

/-- C6: every successful request issues exactly two object-store
writes: the image bytes under the original content type and the
response markdown under text/markdown, at the image key with its
extension replaced. -/
theorem claim6_two_writes (req : Request) (env : Env) (w : World) (file : UploadedFile)
    (d : SuccessData) (tr : List Event) (h : req.file = some file)
    (hr : handleOcr req env w = (.ok d, tr)) :
    tr.filter Event.isPut =
      [.s3Put (env.bucketName.getD "") (s3KeyOf w.now1 file.originalname)
        (.bytes file.buffer) file.mimetype,
       .s3Put (env.bucketName.getD "") (mdKeyOf (s3KeyOf w.now1 file.originalname))
        (.text d.markdown) "text/markdown"] := by
  cases hk : jsTruthy env.togetherApiKey
  · rw [handleOcr_noKey req env w file h hk] at hr; simp at hr
  · cases hb : jsTruthy env.bucketName
    · rw [handleOcr_noBucket req env w file h hk hb] at hr; simp at hr
    · rcases hi : w.imgUpload with e | ⟨⟩
      · rw [handleOcr_imgErr req env w file e h hk hb hi] at hr; simp at hr
      · rcases hc : w.inference with e | c
        · rw [handleOcr_infErr req env w file e h hk hb hi hc] at hr; simp at hr
        · rcases hm : w.mdUpload with e | ⟨⟩
          · rw [handleOcr_mdErr req env w file c e h hk hb hi hc hm] at hr; simp at hr
          · rw [handleOcr_success req env w file c h hk hb hi hc hm] at hr
            simp only [Prod.mk.injEq, Resp.ok.injEq] at hr
            obtain ⟨hd, htr⟩ := hr
            subst htr
            rw [← hd]
            simp [Event.isPut, imgPutEv, mdPutEv]

/-- C6 witness: the concrete successful run issues the two writes. -/
theorem claim6_witness :
    tr0.filter Event.isPut =
      [.s3Put (env0.bucketName.getD "") (s3KeyOf w0.now1 file0.originalname)
        (.bytes file0.buffer) file0.mimetype,
       .s3Put (env0.bucketName.getD "") (mdKeyOf (s3KeyOf w0.now1 file0.originalname))
        (.text d0.markdown) "text/markdown"] :=
  claim6_two_writes req0 env0 w0 file0 d0 tr0 rfl (by decide)

/-- C7: every successful response reports the elapsed milliseconds
between the two clock samples around the inference call, divided by
1000, rendered with two decimal places and an s suffix; the rendered
centisecond count is monotone and non-negative, and 2000 ms renders as
2.00. -/
theorem claim7_processing_time (req : Request) (env : Env) (w : World)
    (d : SuccessData) (tr : List Event)
    (hr : handleOcr req env w = (.ok d, tr)) :
    d.processingTime = toFixed2 (w.now3 - w.now2) ++ "s"
    ∧ (∀ a b : Nat, a ≤ b → centisOf a ≤ centisOf b)
    ∧ (∀ ms : Nat, 0 ≤ centisOf ms)
    ∧ toFixed2 2000 = "2.00" := by
  refine ⟨?_, fun a b hab => Nat.div_le_div_right (Nat.add_le_add_right hab 5),
    fun ms => Nat.zero_le _, by decide⟩
  rcases hf : req.file with _ | file
  · rw [handleOcr_noFile req env w hf] at hr; simp at hr
  · cases hk : jsTruthy env.togetherApiKey
    · rw [handleOcr_noKey req env w file hf hk] at hr; simp at hr
    · cases hb : jsTruthy env.bucketName
      · rw [handleOcr_noBucket req env w file hf hk hb] at hr; simp at hr
      · rcases hi : w.imgUpload with e | ⟨⟩
        · rw [handleOcr_imgErr req env w file e hf hk hb hi] at hr; simp at hr
        · rcases hc : w.inference with e | c
          · rw [handleOcr_infErr req env w file e hf hk hb hi hc] at hr; simp at hr
          · rcases hm : w.mdUpload with e | ⟨⟩
            · rw [handleOcr_mdErr req env w file c e hf hk hb hi hc hm] at hr
              simp at hr
            · rw [handleOcr_success req env w file c hf hk hb hi hc hm] at hr
              simp only [Prod.mk.injEq, Resp.ok.injEq] at hr
              rw [← hr.1]

/-- C7 witness: at clock samples 0 and 2000 the successful run reports
the rendered elapsed time, which is the string 2.00s. -/
theorem claim7_witness :
    d0.processingTime = toFixed2 (w0.now3 - w0.now2) ++ "s" :=
  (claim7_processing_time req0 env0 w0 d0 tr0 (by decide)).1

/-- C8: each request moves forward through validate, image upload,
inference, markdown upload: a failed validation issues no external
calls in either variant; after validation, an image-upload failure ends
the request with only the image put issued, an inference failure with
only the image put and the inference call issued, and once inference
returns some content the full trace is fixed while success of the
response coincides with success of the markdown upload; the temp-file
variant issues its external-service calls in one of the same four
forward prefixes. -/
theorem claim8_pipeline_forward_only (req : Request) (env : Env) (w : World) :
    (validationPasses req env = false →
      (handleOcr req env w).2 = [] ∧ (handleOcrTmp req env w).2 = [])
    ∧ (∀ file, req.file = some file → validationPasses req env = true →
        ((∀ e, w.imgUpload = Except.error e →
            handleOcr req env w = (.err 500 (errMsg e), [imgPutEv env w file]))
        ∧ (∀ e, w.imgUpload = Except.ok () → w.inference = Except.error e →
            handleOcr req env w =
              (.err 500 (errMsg e), [imgPutEv env w file, .inferenceCall]))
        ∧ (∀ c, w.imgUpload = Except.ok () → w.inference = Except.ok c →
            (handleOcr req env w).2 =
              [imgPutEv env w file, .inferenceCall,
               mdPutEv env w file (contentOrFallback c)]
            ∧ ((handleOcr req env w).1.isFailure = false ↔
                w.mdUpload = Except.ok ()))
        ∧ ((handleOcrTmp req env w).2.filter (fun ev => !ev.isTmpOp) = []
          ∨ (handleOcrTmp req env w).2.filter (fun ev => !ev.isTmpOp) =
              [imgPutEv env w file]
          ∨ (handleOcrTmp req env w).2.filter (fun ev => !ev.isTmpOp) =
              [imgPutEv env w file, .ocrCall (tempPathOf w.now1 file.originalname)]
          ∨ (∃ md, (handleOcrTmp req env w).2.filter (fun ev => !ev.isTmpOp) =
              [imgPutEv env w file, .ocrCall (tempPathOf w.now1 file.originalname),
               mdPutEv env w file md])))) := by
  constructor
  · intro hv
    rcases hf : req.file with _ | file
    · rw [handleOcr_noFile req env w hf, handleOcrTmp_noFile req env w hf]
      exact ⟨rfl, rfl⟩
    · cases hk : jsTruthy env.togetherApiKey
      · rw [handleOcr_noKey req env w file hf hk, handleOcrTmp_noKey req env w file hf hk]
        exact ⟨rfl, rfl⟩
      · cases hb : jsTruthy env.bucketName
        · rw [handleOcr_noBucket req env w file hf hk hb,
            handleOcrTmp_noBucket req env w file hf hk hb]
          exact ⟨rfl, rfl⟩
        · simp [validationPasses, hf, hk, hb] at hv
  · intro file hf hv
    simp only [validationPasses, hf, Option.isSome_some, Bool.true_and,
      Bool.and_eq_true] at hv
    obtain ⟨hk, hb⟩ := hv
    refine ⟨?_, ?_, ?_, ?_⟩
    · intro e hi
      exact handleOcr_imgErr req env w file e hf hk hb hi
    · intro e hi hc
      exact handleOcr_infErr req env w file e hf hk hb hi hc
    · intro c hi hc
      rcases hm : w.mdUpload with e | ⟨⟩
      · rw [handleOcr_mdErr req env w file c e hf hk hb hi hc hm]
        simp [Resp.isFailure, hm]
      · rw [handleOcr_success req env w file c hf hk hb hi hc hm]
        simp [Resp.isFailure, hm]
    · rcases hw : w.tmpWrite with e | ⟨⟩
      · left
        rw [handleOcrTmp_writeErr req env w file e hf hk hb hw]
        simp [Event.isTmpOp]
      · rcases hi : w.imgUpload with e | ⟨⟩
        · right; left
          rw [handleOcrTmp_imgErr req env w file e hf hk hb hw hi]
          simp [Event.isTmpOp, imgPutEv]
        · rcases hc : w.ocrResult with e | md
          · right; right; left
            rw [handleOcrTmp_ocrErr req env w file e hf hk hb hw hi hc]
            simp [Event.isTmpOp, imgPutEv]
          · right; right; right
            refine ⟨md, ?_⟩
            rcases hm : w.mdUpload with e | ⟨⟩
            · rw [handleOcrTmp_mdErr req env w file md e hf hk hb hw hi hc hm]
              simp [Event.isTmpOp, imgPutEv, mdPutEv]
            · rw [handleOcrTmp_success req env w file md hf hk hb hw hi hc hm]
              simp [Event.isTmpOp, imgPutEv, mdPutEv]

/-- C8 witness: an inference failure ends with the image put and the
inference call only, and a fully successful run fixes the three-call
trace with a success response. -/
theorem claim8_witness :
    handleOcr req0 env0 wInfErr =
      (.err 500 (errMsg "rate limited"), [imgPutEv env0 wInfErr file0, .inferenceCall])
    ∧ (handleOcr req0 env0 w0).2 =
      [imgPutEv env0 w0 file0, .inferenceCall,
       mdPutEv env0 w0 file0 (contentOrFallback (some "# Title"))]
    ∧ ((handleOcr req0 env0 w0).1.isFailure = false ↔ w0.mdUpload = Except.ok ()) :=
  ⟨((claim8_pipeline_forward_only req0 env0 wInfErr).2 file0 rfl (by decide)).2.1
      "rate limited" rfl rfl,
   ((claim8_pipeline_forward_only req0 env0 w0).2 file0 rfl (by decide)).2.2.1
      (some "# Title") rfl rfl |>.1,
   ((claim8_pipeline_forward_only req0 env0 w0).2 file0 rfl (by decide)).2.2.1
      (some "# Title") rfl rfl |>.2⟩

/-- C9: when the original filename holds no dot, the extension regex
does not match, the markdown key equals the image key, and a successful
request writes the markdown over the stored image object. -/
theorem claim9_dotless_overwrite (t : Nat) (n : String) (req : Request) (env : Env)
    (w : World) (file : UploadedFile) (d : SuccessData) (tr : List Event)
    (hn : '.' ∉ n.data) (hf : req.file = some file)
    (hfn : '.' ∉ file.originalname.data)
    (hr : handleOcr req env w = (.ok d, tr)) :
    mdKeyOf (s3KeyOf t n) = s3KeyOf t n
    ∧ d.outputFile = d.inputFile
    ∧ tr.filter Event.isPut =
      [.s3Put (env.bucketName.getD "") (s3KeyOf w.now1 file.originalname)
        (.bytes file.buffer) file.mimetype,
       .s3Put (env.bucketName.getD "") (s3KeyOf w.now1 file.originalname)
        (.text d.markdown) "text/markdown"] := by
  refine ⟨mdKeyOf_s3KeyOf_no_dot t n hn, ?_⟩
  cases hk : jsTruthy env.togetherApiKey
  · rw [handleOcr_noKey req env w file hf hk] at hr; simp at hr
  · cases hb : jsTruthy env.bucketName
    · rw [handleOcr_noBucket req env w file hf hk hb] at hr; simp at hr
    · rcases hi : w.imgUpload with e | ⟨⟩
      · rw [handleOcr_imgErr req env w file e hf hk hb hi] at hr; simp at hr
      · rcases hc : w.inference with e | c
        · rw [handleOcr_infErr req env w file e hf hk hb hi hc] at hr; simp at hr
        · rcases hm : w.mdUpload with e | ⟨⟩
          · rw [handleOcr_mdErr req env w file c e hf hk hb hi hc hm] at hr
            simp at hr
          · rw [handleOcr_success req env w file c hf hk hb hi hc hm] at hr
            simp only [Prod.mk.injEq, Resp.ok.injEq] at hr
            obtain ⟨hd, htr⟩ := hr
            subst htr
            have hmd := mdKeyOf_s3KeyOf_no_dot w.now1 file.originalname hfn
            constructor
            · rw [← hd]
              simp [hmd]
            · rw [← hd]
              simp [Event.isPut, imgPutEv, mdPutEv, hmd]

/-- C9 witness: an extensionless upload leaves the key unchanged, and
the concrete successful run targets the image key with both writes. -/
theorem claim9_witness :
    mdKeyOf (s3KeyOf 7 "archive") = s3KeyOf 7 "archive"
    ∧ dNoExt.outputFile = dNoExt.inputFile
    ∧ trNoExt.filter Event.isPut =
      [.s3Put (env0.bucketName.getD "") (s3KeyOf w0.now1 fileNoExt.originalname)
        (.bytes fileNoExt.buffer) fileNoExt.mimetype,
       .s3Put (env0.bucketName.getD "") (s3KeyOf w0.now1 fileNoExt.originalname)
        (.text dNoExt.markdown) "text/markdown"] :=
  claim9_dotless_overwrite 7 "archive" reqNoExt env0 w0 fileNoExt dNoExt trNoExt
    (by decide) rfl (by decide) (by decide)

/-- C10 counterexample: with identical external behaviour (all store
writes succeed, the extracted text is the empty string, same clock) the
two variants answer different envelopes: the chat-completions variant
substitutes the placeholder while the llama-ocr variant returns the
empty markdown. -/
theorem claim10_counterexample :
    (handleOcr req0 env0 wEmptyText).1 = .ok ⟨"uploads/1000-scan.png",
      "uploads/1000-scan.md", "No text extracted", "bucket", "2.00s"⟩
    ∧ (handleOcrTmp req0 env0 wEmptyText).1 = .ok ⟨"uploads/1000-scan.png",
      "uploads/1000-scan.md", "", "bucket", "2.00s"⟩
    ∧ (handleOcr req0 env0 wEmptyText).1 ≠ (handleOcrTmp req0 env0 wEmptyText).1 := by
  decide

/-- C10 (amended): the two variants produce the same response envelope
whenever the temp-file write succeeds and the two inference backends
agree, either both failing with the same error or both yielding the
same non-empty extracted text. -/
theorem claim10_amended_equivalence (req : Request) (env : Env) (w : World)
    (hw : w.tmpWrite = .ok ())
    (hmatch : (∃ e, w.inference = Except.error e ∧ w.ocrResult = Except.error e)
      ∨ (∃ t, t ≠ "" ∧ w.inference = Except.ok (some t) ∧ w.ocrResult = Except.ok t)) :
    (handleOcr req env w).1 = (handleOcrTmp req env w).1 := by
  rcases hf : req.file with _ | file
  · rw [handleOcr_noFile req env w hf, handleOcrTmp_noFile req env w hf]
  · cases hk : jsTruthy env.togetherApiKey
    · rw [handleOcr_noKey req env w file hf hk, handleOcrTmp_noKey req env w file hf hk]
    · cases hb : jsTruthy env.bucketName
      · rw [handleOcr_noBucket req env w file hf hk hb,
          handleOcrTmp_noBucket req env w file hf hk hb]
      · rcases hi : w.imgUpload with e | ⟨⟩
        · rw [handleOcr_imgErr req env w file e hf hk hb hi,
            handleOcrTmp_imgErr req env w file e hf hk hb hw hi]
        · rcases hmatch with ⟨e, hc1, hc2⟩ | ⟨t, ht, hc1, hc2⟩
          · rw [handleOcr_infErr req env w file e hf hk hb hi hc1,
              handleOcrTmp_ocrErr req env w file e hf hk hb hw hi hc2]
          · have hco : contentOrFallback (some t) = t := by simp [contentOrFallback, ht]
            rcases hm : w.mdUpload with e | ⟨⟩
            · rw [handleOcr_mdErr req env w file (some t) e hf hk hb hi hc1 hm,
                handleOcrTmp_mdErr req env w file t e hf hk hb hw hi hc2 hm]
            · rw [handleOcr_success req env w file (some t) hf hk hb hi hc1 hm,
                handleOcrTmp_success req env w file t hf hk hb hw hi hc2 hm]
              simp [hco]

/-- C10 (amended) witness: with matching successful backends returning
a non-empty title, the two variants answer the same envelope. -/
theorem claim10_amended_witness :
    (handleOcr req0 env0 w0).1 = (handleOcrTmp req0 env0 w0).1 :=
  claim10_amended_equivalence req0 env0 w0 rfl
    (Or.inr ⟨"# Title", by decide, rfl, rfl⟩)

end OcrServer
